import Mathlib

/-!
# Verification of the udger-nodejs classification engine

This development embeds the classification engine of the repository
(`UdgerParser` in the main module: `parseUa`, `parseIp`, `parse`, and the
cache layer `cacheRead` / `cacheWrite`) as executable Lean definitions, and
settles the specification claims against them.

The engine works over an in-memory dataset whose tables are stored exactly as
the converter (`convert.js`) produces them: each table is a record
`{columns, data}` where `columns` maps a column name to an integer index and
`data` is a list of raw rows (arrays of values).  Foreign-key columns listed
in `convert.js` hold the *row index* of the referenced table (or are
`undefined` when the id was dangling).  We model JavaScript values with a
small sum type `JsVal` covering the cases that occur in the dataset and in
the engine (strings, integer numbers, `null`, `undefined`), together with
the truthiness, strict-equality and string-coercion rules the source relies
on.

The regex translation in `utils.phpRegexpToJs` and the IP helpers
(`getIpVersion`, `inetPton`/`inetNtop`, `ip2long`) live in `utils.js`, which
is not part of the sources available here; they are modelled from the spec
(see the individual doc comments).  The nested "JSON format" output
(`ruaJson` / `ripJson`, built with `dot-prop` paths) duplicates the facts of
the flat record; only its top-level presence in `parse`'s result is
claim-relevant, so its interior is not modelled.
-/

/-- A JavaScript value as it occurs in the engine's data flow: the dataset
holds strings and integer numbers (SQLite NULLs become `null`), and failed
lookups produce `undefined`. -/
inductive JsVal where
  | str : String → JsVal
  | num : Int → JsVal
  | null : JsVal
  | undef : JsVal
deriving DecidableEq, Repr

namespace JsVal

/-- JavaScript truthiness for the values of our domain. -/
def truthy : JsVal → Bool
  | .str s => s ≠ ""
  | .num n => n ≠ 0
  | .null => false
  | .undef => false

/-- String coercion as performed by JavaScript `+` concatenation. -/
def toStr : JsVal → String
  | .str s => s
  | .num n => toString n
  | .null => "null"
  | .undef => "undefined"

end JsVal

/-- `v || ''` as used pervasively by the engine when copying joined fields
into the result record: the value itself when truthy, else `''`. -/
def jsOrEmpty (v : JsVal) : JsVal :=
  if v.truthy then v else .str ""

/-- `(v || '')` appearing inside a string concatenation: the coerced string
of the value when truthy, else the empty string. -/
def jsOrEmptyStr (v : JsVal) : String :=
  if v.truthy then v.toStr else ""

/-- JavaScript strict equality `===` restricted to our value domain. -/
def jsStrictEq (a b : JsVal) : Bool :=
  a = b

/-- JavaScript loose equality `v == n` / `v != n` against a number literal,
as used for the id guards (`os_id == 0`, `client_id != 0`,
`client_class_id != -1`).  The id variables only ever hold numbers or
`undefined` (`null` also compares false); string-to-number coercion never
arises for them and is not modelled. -/
def jsLooseEqInt (v : JsVal) (n : Int) : Bool :=
  match v with
  | .num m => m = n
  | _ => false

/-- `row[col] <= bound` for the datacenter range scans: only a number
compares true (`undefined`/`null` give `NaN` comparisons, hence false). -/
def jsLeInt (v : JsVal) (bound : Int) : Bool :=
  match v with
  | .num m => m ≤ bound
  | _ => false

/-- `row[col] >= bound`, same conventions as `jsLeInt`. -/
def jsGeInt (v : JsVal) (bound : Int) : Bool :=
  match v with
  | .num m => m ≥ bound
  | _ => false

/-- A plain JavaScript object with string keys, as produced by `map`. -/
abbrev JsObj := List (String × JsVal)

/-- Property read `o[k]`: the stored value, or `undefined` when absent. -/
def objGet (o : JsObj) (k : String) : JsVal :=
  match o.find? (fun p => p.1 = k) with
  | some p => p.2
  | none => (.undef : JsVal)

/-- Property write `o[k] = v` (update in place, or append a new key). -/
def objSet (o : JsObj) (k : String) (v : JsVal) : JsObj :=
  match o with
  | [] => [(k, v)]
  | p :: rest => if p.1 = k then (k, v) :: rest else p :: objSet rest k v

/-- Property removal `delete o[k]`. -/
def objDelete (o : JsObj) (k : String) : JsObj :=
  o.filter (fun p => p.1 ≠ k)

/-- Object spread `{...a, ...b}`: the entries of `b` written over `a`. -/
def objMerge (a b : JsObj) : JsObj :=
  b.foldl (fun acc p => objSet acc p.1 p.2) a

/-- One dataset table as produced by `convert.js`: a column-name → index
map and the raw rows. -/
structure Table where
  columns : List (String × Nat)
  data : List (List JsVal)

/-- `columns[key]`: the index of a column, `none` when the column is absent
(JavaScript would yield `undefined`). -/
def colIdx (t : Table) (key : String) : Option Nat :=
  (t.columns.find? (fun p => p.1 = key)).map (fun p => p.2)

/-- `row[i]` on a raw array row: the cell, or `undefined` when the index is
`undefined` or out of range. -/
def rowGet (cells : List JsVal) (i : Option Nat) : JsVal :=
  match i with
  | some n => (cells.get? n).getD .undef
  | none => (.undef : JsVal)

/-- `data[v]`: array indexing by a JavaScript value, as done by the joins
(`this.data.t.data[r.foreign_id]`).  Only a non-negative number reaches a
row; `undefined` (a dangling foreign id) misses. -/
def jsIndex (rows : List (List JsVal)) (v : JsVal) : Option (List JsVal) :=
  match v with
  | .num n => if n ≥ 0 then rows.get? n.toNat else none
  | _ => none

/-- The value of the engine's reused `r` variable: either a raw table row
(an array) or an object previously built by `map`. -/
inductive RVal where
  | row : List JsVal → RVal
  | obj : JsObj → RVal

/-- Reading `r[i]` where `i` is a column index: an array row yields its
cell; a plain `map`-built object has no numeric keys, so the read yields
`undefined`. -/
def rvGet (rv : RVal) (i : Option Nat) : JsVal :=
  match rv with
  | .row cells => rowGet cells i
  | .obj _ => (.undef : JsVal)

/-- `jsIndex` wrapped as an `RVal` row, the shape fed to `map` by the
foreign-key joins. -/
def jsIndexR (rows : List (List JsVal)) (v : JsVal) : Option RVal :=
  (jsIndex rows v).map RVal.row

/-- `UdgerParser.map`: projects the listed columns of a row into a fresh
object, then applies the renames (`ret[k2] = ret[k1]; delete ret[k1]`).  A
missing row (`undefined`, e.g. from a dangling foreign id) yields the empty
object, so the join never throws. -/
def mapRow (tbl : Table) (row : Option RVal) (keys : List String)
    (rename : List (String × String)) : JsObj :=
  match row with
  | none => []
  | some rv =>
    let base := keys.foldl (fun acc key => objSet acc key (rvGet rv (colIdx tbl key))) []
    rename.foldl (fun acc p => objDelete (objSet acc p.2 (objGet acc p.1)) p.1) base

/-- `UdgerParser.findBy`: first row of a table satisfying the predicate. -/
def findBy (tbl : Table) (p : List JsVal → Bool) : Option (List JsVal) :=
  tbl.data.find? p

/-- `UdgerParser.filterBy`: all rows of a table satisfying the predicate. -/
def filterBy (tbl : Table) (p : List JsVal → Bool) : List (List JsVal) :=
  tbl.data.filter p

/-- The relevant content of a JavaScript regex match result `e`: the match
succeeded, and `e[1]` (capture group 1) is a string or `undefined`. -/
structure UaMatch where
  group1 : Option String
deriving DecidableEq, Repr

/-- The pre-loaded dataset `this.data`, one `Table` per source table, plus
the regex semantics.

`regexSem regstring ua` stands for `ua.match(utils.phpRegexpToJs(regstring))`.
`utils.js` is not among the sources; modelled from the spec: the Pattern
Translator is a stateless, idempotent translation of the vendor pattern, so
applying a pattern to a subject is a pure function of the pattern text and
the subject (`none` = no match). -/
structure Dataset where
  udger_crawler_list : Table
  udger_crawler_class : Table
  udger_client_regex : Table
  udger_client_list : Table
  udger_client_class : Table
  udger_os_regex : Table
  udger_os_list : Table
  udger_client_os_relation : Table
  udger_deviceclass_regex : Table
  udger_deviceclass_list : Table
  udger_devicename_regex : Table
  udger_devicename_list : Table
  udger_devicename_brand : Table
  udger_ip_list : Table
  udger_ip_class : Table
  udger_datacenter_range : Table
  udger_datacenter_range6 : Table
  udger_datacenter_list : Table
  regexSem : String → String → Option UaMatch

/-- The flat ("UDGER FORMAT") user-agent result record `rua`.  Modelled from
the spec: the default template `defaultResult.json` is not among the
sources; per §4.2 every field defaults to the empty string. -/
structure UaRua where
  ua_string : JsVal := .str ""
  ua_class : JsVal := .str ""
  ua_class_code : JsVal := .str ""
  ua : JsVal := .str ""
  ua_version : JsVal := .str ""
  ua_version_major : JsVal := .str ""
  ua_uptodate_current_version : JsVal := .str ""
  ua_family : JsVal := .str ""
  ua_family_code : JsVal := .str ""
  ua_family_homepage : JsVal := .str ""
  ua_family_vendor : JsVal := .str ""
  ua_family_vendor_code : JsVal := .str ""
  ua_family_vendor_homepage : JsVal := .str ""
  ua_family_icon : JsVal := .str ""
  ua_family_icon_big : JsVal := .str ""
  ua_family_info_url : JsVal := .str ""
  ua_engine : JsVal := .str ""
  crawler_last_seen : JsVal := .str ""
  crawler_category : JsVal := .str ""
  crawler_category_code : JsVal := .str ""
  crawler_respect_robotstxt : JsVal := .str ""
  os : JsVal := .str ""
  os_code : JsVal := .str ""
  os_homepage : JsVal := .str ""
  os_icon : JsVal := .str ""
  os_icon_big : JsVal := .str ""
  os_info_url : JsVal := .str ""
  os_family : JsVal := .str ""
  os_family_code : JsVal := .str ""
  os_family_vendor : JsVal := .str ""
  os_family_vendor_code : JsVal := .str ""
  os_family_vendor_homepage : JsVal := .str ""
  device_class : JsVal := .str ""
  device_class_code : JsVal := .str ""
  device_class_icon : JsVal := .str ""
  device_class_icon_big : JsVal := .str ""
  device_class_info_url : JsVal := .str ""
  device_marketname : JsVal := .str ""
  device_brand : JsVal := .str ""
  device_brand_code : JsVal := .str ""
  device_brand_homepage : JsVal := .str ""
  device_brand_icon : JsVal := .str ""
  device_brand_icon_big : JsVal := .str ""
  device_brand_info_url : JsVal := .str ""
deriving DecidableEq, Repr

/-- The all-default template row (every field the empty string). -/
def defaultRua : UaRua := {}

/-- The mutable state of one `parseUa` run: the result record under
construction, the four id variables, and the reused scratch variable `r`
(`none` = still `undefined`). -/
structure UaCtx where
  rua : UaRua
  client_id : JsVal
  client_class_id : JsVal
  os_id : JsVal
  deviceclass_id : JsVal
  r : Option RVal

/-- One regex-scan loop (`for (r of tbl.data) { e = ua.match(...); if (e)
... break; }`): the first row whose pattern matches, paired with the match
result. -/
def scanMatch (sem : String → String → Option UaMatch) (regIdx : Option Nat)
    (rows : List (List JsVal)) (ua : String) : Option (List JsVal × UaMatch) :=
  rows.findSome? (fun cells => (sem (rowGet cells regIdx).toStr ua).map (fun e => (cells, e)))

/-- Value of the loop variable `r` after a scan loop that never broke: the
last iterated row, or the previous value when the table was empty. -/
def lastRowOpt (rows : List (List JsVal)) (old : Option RVal) : Option RVal :=
  match rows.getLast? with
  | some cells => some (.row cells)
  | none => old

/-- The crawler exact-match predicate (`row[ua_string] === ua`). -/
def crawlerPred (ds : Dataset) (ua : String) (cells : List JsVal) : Bool :=
  jsStrictEq (rowGet cells (colIdx ds.udger_crawler_list "ua_string")) (.str ua)

/-- `major = e[1].split('.')[0]`: the substring before the first `.`. -/
def majorOf (v : String) : String :=
  String.mk (v.data.takeWhile (fun c => c ≠ '.'))

/-- Stage 1/2 of `parseUa`: crawler exact match, else the client regex
cascade. -/
def stageCrawlerClient (ds : Dataset) (ua : String) (ctx : UaCtx) : UaCtx :=
  match findBy ds.udger_crawler_list (crawlerPred ds ua) with
  | some qRow =>
    let r1 := mapRow ds.udger_crawler_list (some (.row qRow))
      ["id", "name", "ver", "ver_major", "last_seen", "respect_robotstxt",
       "family", "family_code", "family_homepage", "family_icon",
       "vendor", "vendor_code", "vendor_homepage", "class_id"]
      [("id", "botid")]
    let r2 := objMerge r1 (mapRow ds.udger_crawler_class
      (jsIndexR ds.udger_crawler_class.data (objGet r1 "class_id"))
      ["crawler_classification", "crawler_classification_code"] [])
    { ctx with
      client_class_id := .num 99
      r := some (.obj r2)
      rua := { ctx.rua with
        ua_class := .str "Crawler"
        ua_class_code := .str "crawler"
        ua := jsOrEmpty (objGet r2 "name")
        ua_version := jsOrEmpty (objGet r2 "ver")
        ua_version_major := jsOrEmpty (objGet r2 "ver_major")
        ua_family := jsOrEmpty (objGet r2 "family")
        ua_family_code := jsOrEmpty (objGet r2 "family_code")
        ua_family_homepage := jsOrEmpty (objGet r2 "family_homepage")
        ua_family_vendor := jsOrEmpty (objGet r2 "vendor")
        ua_family_vendor_code := jsOrEmpty (objGet r2 "vendor_code")
        ua_family_vendor_homepage := jsOrEmpty (objGet r2 "vendor_homepage")
        ua_family_icon := jsOrEmpty (objGet r2 "family_icon")
        ua_family_info_url := .str ("https://udger.com/resources/ua-list/bot-detail?bot="
          ++ jsOrEmptyStr (objGet r2 "family") ++ "#id" ++ jsOrEmptyStr (objGet r2 "botid"))
        crawler_last_seen := jsOrEmpty (objGet r2 "last_seen")
        crawler_category := jsOrEmpty (objGet r2 "crawler_classification")
        crawler_category_code := jsOrEmpty (objGet r2 "crawler_classification_code")
        crawler_respect_robotstxt := jsOrEmpty (objGet r2 "respect_robotstxt") } }
  | none =>
    match scanMatch ds.regexSem (colIdx ds.udger_client_regex "regstring")
        ds.udger_client_regex.data ua with
    | some (cells, e) =>
      let ra := mapRow ds.udger_client_regex (some (.row cells)) ["client_id", "regstring"] []
      let rb := objMerge ra (mapRow ds.udger_client_list
        (jsIndexR ds.udger_client_list.data (objGet ra "client_id"))
        ["id", "class_id", "name", "name_code", "homepage", "icon", "icon_big",
         "engine", "vendor", "vendor_code", "vendor_homepage", "uptodate_current_version"]
        [("id", "client_id")])
      let rc := objMerge rb (mapRow ds.udger_client_class
        (jsIndexR ds.udger_client_class.data (objGet rb "class_id"))
        ["id", "client_classification", "client_classification_code"]
        [("id", "class_id")])
      let name := objGet rc "name"
      -- `if (e[1]) {...} else {...}` — group 1 present and non-empty
      let versioned : JsVal × JsVal × JsVal :=
        match e.group1 with
        | some v =>
          if v = "" then (name, .str "", .str "")
          else (.str (name.toStr ++ " " ++ v), .str v, .str (majorOf v))
        | none => (name, .str "", .str "")
      { ctx with
        client_id := objGet rc "client_id"
        client_class_id := objGet rc "class_id"
        r := some (.obj rc)
        rua := { ctx.rua with
          ua_class := objGet rc "client_classification"
          ua_class_code := objGet rc "client_classification_code"
          ua := versioned.1
          ua_version := versioned.2.1
          ua_version_major := versioned.2.2
          ua_uptodate_current_version := jsOrEmpty (objGet rc "uptodate_current_version")
          ua_family := jsOrEmpty (objGet rc "name")
          ua_family_code := jsOrEmpty (objGet rc "name_code")
          ua_family_homepage := jsOrEmpty (objGet rc "homepage")
          ua_family_vendor := jsOrEmpty (objGet rc "vendor")
          ua_family_vendor_code := jsOrEmpty (objGet rc "vendor_code")
          ua_family_vendor_homepage := jsOrEmpty (objGet rc "vendor_homepage")
          ua_family_icon := jsOrEmpty (objGet rc "icon")
          ua_family_icon_big := jsOrEmpty (objGet rc "icon_big")
          ua_family_info_url := .str ("https://udger.com/resources/ua-list/browser-detail?browser="
            ++ jsOrEmptyStr (objGet rc "name"))
          ua_engine := jsOrEmpty (objGet rc "engine") } }
    | none => { ctx with r := lastRowOpt ds.udger_client_regex.data ctx.r }

/-- The fields set by an OS join (shared by the direct OS match and the
client/os-relation fallback, which assign the identical field list). -/
def setOsFields (rua : UaRua) (rb : JsObj) : UaRua :=
  { rua with
    os := jsOrEmpty (objGet rb "name")
    os_code := jsOrEmpty (objGet rb "name_code")
    os_homepage := jsOrEmpty (objGet rb "homepage")
    os_icon := jsOrEmpty (objGet rb "icon")
    os_icon_big := jsOrEmpty (objGet rb "icon_big")
    os_info_url := .str ("https://udger.com/resources/ua-list/os-detail?os="
      ++ jsOrEmptyStr (objGet rb "name"))
    os_family := jsOrEmpty (objGet rb "family")
    os_family_code := jsOrEmpty (objGet rb "family_code")
    os_family_vendor := jsOrEmpty (objGet rb "vendor")
    os_family_vendor_code := jsOrEmpty (objGet rb "vendor_code")
    os_family_vendor_homepage := jsOrEmpty (objGet rb "vendor_homepage") }

/-- The column list projected out of `udger_os_list` (with `id` renamed to
`os_id`). -/
def osListKeys : List String :=
  ["id", "family", "family_code", "name", "name_code", "homepage", "icon",
   "icon_big", "vendor", "vendor_code", "vendor_homepage"]

/-- Stage 3 of `parseUa`: the OS regex cascade (independent of stages 1–2). -/
def stageOs (ds : Dataset) (ua : String) (ctx : UaCtx) : UaCtx :=
  match scanMatch ds.regexSem (colIdx ds.udger_os_regex "regstring")
      ds.udger_os_regex.data ua with
  | some (cells, _) =>
    let ra := mapRow ds.udger_os_regex (some (.row cells)) ["os_id", "regstring"] []
    let rb := objMerge ra (mapRow ds.udger_os_list
      (jsIndexR ds.udger_os_list.data (objGet ra "os_id")) osListKeys [("id", "os_id")])
    { ctx with
      os_id := objGet rb "os_id"
      r := some (.obj rb)
      rua := setOsFields ctx.rua rb }
  | none => { ctx with r := lastRowOpt ds.udger_os_regex.data ctx.r }

/-- Stage 4 of `parseUa`: the client/os-relation fallback, translated with
the source's two slips kept intact:

* in `findBy('udger_client_os_relation', (row, { client_id }) =>
  row[client_id] === client_id)` the destructured column index shadows the
  outer `client_id` variable, so each row's `client_id` *value* is compared
  with the `client_id` *column index* (and when the column is absent, the
  comparison is `undefined === undefined`);
* the subsequent `map` is invoked with `row: r` — the stale loop variable —
  instead of the found row `q`. -/
def stageOsFallback (ds : Dataset) (ctx : UaCtx) : UaCtx :=
  if jsLooseEqInt ctx.os_id 0 && !jsLooseEqInt ctx.client_id 0 then
    let cidCol := colIdx ds.udger_client_os_relation "client_id"
    let shadowed : JsVal := match cidCol with
      | some i => .num i
      | none => .undef
    match findBy ds.udger_client_os_relation
        (fun cells => jsStrictEq (rowGet cells cidCol) shadowed) with
    | some _ =>
      let ra := mapRow ds.udger_client_os_relation ctx.r ["os_id"] []
      let rb := objMerge ra (mapRow ds.udger_os_list
        (jsIndexR ds.udger_os_list.data (objGet ra "os_id")) osListKeys [("id", "os_id")])
      { ctx with
        os_id := objGet rb "os_id"
        r := some (.obj rb)
        rua := setOsFields ctx.rua rb }
    | none => ctx
  else ctx

/-- The column list projected out of `udger_deviceclass_list` (with `id`
renamed to `deviceclass_id`). -/
def deviceclassListKeys : List String :=
  ["id", "name", "name_code", "icon", "icon_big"]

/-- Stage 5 of `parseUa`: the device-class regex cascade.  Note the
`device_class_info_url` concatenates `r['name']` *without* the `|| ''`
guard used elsewhere. -/
def stageDeviceClass (ds : Dataset) (ua : String) (ctx : UaCtx) : UaCtx :=
  match scanMatch ds.regexSem (colIdx ds.udger_deviceclass_regex "regstring")
      ds.udger_deviceclass_regex.data ua with
  | some (cells, _) =>
    let ra := mapRow ds.udger_deviceclass_regex (some (.row cells))
      ["deviceclass_id", "regstring"] []
    let rb := objMerge ra (mapRow ds.udger_deviceclass_list
      (jsIndexR ds.udger_deviceclass_list.data (objGet ra "deviceclass_id"))
      deviceclassListKeys [("id", "deviceclass_id")])
    { ctx with
      deviceclass_id := objGet rb "deviceclass_id"
      r := some (.obj rb)
      rua := { ctx.rua with
        device_class := jsOrEmpty (objGet rb "name")
        device_class_code := jsOrEmpty (objGet rb "name_code")
        device_class_icon := jsOrEmpty (objGet rb "icon")
        device_class_icon_big := jsOrEmpty (objGet rb "icon_big")
        device_class_info_url := .str ("https://udger.com/resources/ua-list/device-detail?device="
          ++ (objGet rb "name").toStr) } }
  | none => { ctx with r := lastRowOpt ds.udger_deviceclass_regex.data ctx.r }

/-- Stage 6 of `parseUa`: the device-class fallback via the client class
(`deviceclass_id == 0 && client_class_id != -1`, then
`row[id] === client_class_id` on `udger_client_class`). -/
def stageDeviceClassFallback (ds : Dataset) (ctx : UaCtx) : UaCtx :=
  if jsLooseEqInt ctx.deviceclass_id 0 && !jsLooseEqInt ctx.client_class_id (-1) then
    match findBy ds.udger_client_class
        (fun cells => jsStrictEq (rowGet cells (colIdx ds.udger_client_class "id"))
          ctx.client_class_id) with
    | some qRow =>
      let ra := mapRow ds.udger_client_class (some (.row qRow)) ["deviceclass_id"] []
      let rb := objMerge ra (mapRow ds.udger_deviceclass_list
        (jsIndexR ds.udger_deviceclass_list.data (objGet ra "deviceclass_id"))
        deviceclassListKeys [("id", "deviceclass_id")])
      { ctx with
        deviceclass_id := objGet rb "deviceclass_id"
        r := some (.obj rb)
        rua := { ctx.rua with
          device_class := jsOrEmpty (objGet rb "name")
          device_class_code := jsOrEmpty (objGet rb "name_code")
          device_class_icon := jsOrEmpty (objGet rb "icon")
          device_class_icon_big := jsOrEmpty (objGet rb "icon_big")
          device_class_info_url := .str ("https://udger.com/resources/ua-list/device-detail?device="
            ++ jsOrEmptyStr (objGet rb "name")) } }
    | none => ctx
  else ctx

/-- The inner loop of the marketname stage: the first filtered row whose
regex matches with a truthy group 1 determines `match` (trimmed group) and
`rId` (the row's `id` cell); both stay `undefined` otherwise. -/
def marketnameScan (ds : Dataset) (ua : String) (rows : List (List JsVal)) : JsVal × JsVal :=
  match rows.findSome? (fun cells =>
      match ds.regexSem (rowGet cells (colIdx ds.udger_devicename_regex "regstring")).toStr ua with
      | some e =>
        match e.group1 with
        | some v => if v = "" then none else some (cells, v)
        | none => none
      | none => none) with
  | some (cells, v) =>
    (.str v.trim, rowGet cells (colIdx ds.udger_devicename_regex "id"))
  | none => (.undef, .undef)

/-- Stage 7 of `parseUa`: the device marketname match, gated on a truthy
`os_family_code`. -/
def stageMarketname (ds : Dataset) (ua : String) (ctx : UaCtx) : UaCtx :=
  if (ctx.rua.os_family_code).truthy then
    let filtered := filterBy ds.udger_devicename_regex (fun cells =>
      jsStrictEq (rowGet cells (colIdx ds.udger_devicename_regex "os_family_code"))
        ctx.rua.os_family_code
      && (jsStrictEq (rowGet cells (colIdx ds.udger_devicename_regex "os_code")) (.str "-all-")
          || jsStrictEq (rowGet cells (colIdx ds.udger_devicename_regex "os_code"))
               ctx.rua.os_code))
    let mr := marketnameScan ds ua filtered
    match findBy ds.udger_devicename_list (fun cells =>
        jsStrictEq (rowGet cells (colIdx ds.udger_devicename_list "regex_id")) mr.2
        && jsStrictEq (rowGet cells (colIdx ds.udger_devicename_list "code")) mr.1) with
    | some qC =>
      let ra := mapRow ds.udger_devicename_list (some (.row qC)) ["marketname", "brand_id"] []
      let rb := objMerge ra (mapRow ds.udger_devicename_brand
        (jsIndexR ds.udger_devicename_brand.data (objGet ra "brand_id"))
        ["id", "brand_code", "brand", "brand_url", "icon", "icon_big"]
        [("id", "brand_id")])
      { ctx with
        rua := { ctx.rua with
          device_marketname := jsOrEmpty (objGet rb "marketname")
          device_brand := jsOrEmpty (objGet rb "brand")
          device_brand_code := jsOrEmpty (objGet rb "brand_code")
          device_brand_homepage := jsOrEmpty (objGet rb "brand_url")
          device_brand_icon := jsOrEmpty (objGet rb "icon")
          device_brand_icon_big := jsOrEmpty (objGet rb "icon_big")
          device_brand_info_url := .str ("https://udger.com/resources/ua-list/devices-brand-detail?brand="
            ++ jsOrEmptyStr (objGet rb "brand_code")) } }
    | none => ctx
  else ctx

/-- Truthiness of the nullable string inputs (`this.ua` / `this.ip`):
`null` and the empty string are falsy. -/
def jsStrTruthy (o : Option String) : Bool :=
  match o with
  | some s => s ≠ ""
  | none => false

/-- Stages 3–7 of `parseUa` (everything after the crawler/client branch). -/
def uaPipeline (ds : Dataset) (ua : String) (ctx : UaCtx) : UaCtx :=
  stageMarketname ds ua (stageDeviceClassFallback ds
    (stageDeviceClass ds ua (stageOsFallback ds (stageOs ds ua ctx))))

/-- `UdgerParser.parseUa` (flat "UDGER FORMAT" record).  The `opts`
argument of the source only shapes the nested JSON projection, which is not
modelled; a falsy `ua` short-circuits to the default template. -/
def parseUa (ds : Dataset) (uaOpt : Option String) : UaRua :=
  if jsStrTruthy uaOpt then
    let ua := uaOpt.getD ""
    let ctx0 : UaCtx :=
      { rua := { defaultRua with
          ua_string := .str ua
          ua_class := .str "Unrecognized"
          ua_class_code := .str "unrecognized" }
        client_id := .num 0
        client_class_id := .num (-1)
        os_id := .num 0
        deviceclass_id := .num 0
        r := none }
    (uaPipeline ds ua (stageCrawlerClient ds ua ctx0)).rua
  else defaultRua

/-- Split a character list at every occurrence of `sep` (like JavaScript
`String.split` with a single-character separator). -/
def splitChars (sep : Char) : List Char → List (List Char)
  | [] => [[]]
  | c :: rest =>
    let r := splitChars sep rest
    if c = sep then [] :: r
    else
      match r with
      | h :: t => (c :: h) :: t
      | [] => [[c]]

/-- Decimal value of a digit character, if it is one. -/
def decDigitVal (c : Char) : Option Nat :=
  if '0' ≤ c ∧ c ≤ '9' then some (c.toNat - '0'.toNat) else none

/-- Hexadecimal value of a hex-digit character, if it is one. -/
def hexDigitVal (c : Char) : Option Nat :=
  if '0' ≤ c ∧ c ≤ '9' then some (c.toNat - '0'.toNat)
  else if 'a' ≤ c ∧ c ≤ 'f' then some (c.toNat - 'a'.toNat + 10)
  else if 'A' ≤ c ∧ c ≤ 'F' then some (c.toNat - 'A'.toNat + 10)
  else none

/-- Parse a list of digits with the given per-digit reader and base. -/
def parseDigits (digit : Char → Option Nat) (base : Nat) (cs : List Char) : Option Nat :=
  cs.foldl (fun acc c =>
    match acc, digit c with
    | some a, some d => some (a * base + d)
    | _, _ => none) (some 0)

/-- One dotted-quad octet: one to three decimal digits, value at most 255. -/
def validOctet (cs : List Char) : Bool :=
  cs ≠ [] && cs.length ≤ 3 &&
    (match parseDigits decDigitVal 10 cs with
     | some n => n ≤ 255
     | none => false)

/-- Modelled from the spec: syntactic IPv4 detection (part of the missing
`utils.getIpVersion`) — four dot-separated decimal octets. -/
def isIPv4 (s : String) : Bool :=
  match splitChars '.' s.data with
  | [a, b, c, d] => validOctet a && validOctet b && validOctet c && validOctet d
  | _ => false

/-- Split a character list at the first `::`, if any. -/
def findDoubleColon : List Char → Option (List Char × List Char)
  | [] => none
  | [_] => none
  | c :: rest =>
    if c = ':' then
      match rest with
      | c2 :: rest2 => if c2 = ':' then some ([], rest2) else
          (findDoubleColon rest).map (fun p => (c :: p.1, p.2))
      | [] => none
    else (findDoubleColon rest).map (fun p => (c :: p.1, p.2))

/-- One IPv6 group: one to four hexadecimal digits. -/
def parseHexGroup (cs : List Char) : Option Nat :=
  if cs ≠ [] ∧ cs.length ≤ 4 then parseDigits hexDigitVal 16 cs else none

/-- Modelled from the spec: parse an IPv6 textual form (compressed or
expanded, without an embedded IPv4 tail) into its eight 16-bit groups.
This stands in for the address parsing inside the missing
`utils.inetPton` / `ip-address`'s `Address6`. -/
def parseIPv6 (s : String) : Option (List Nat) :=
  let cs := s.data
  match findDoubleColon cs with
  | none =>
    let parts := splitChars ':' cs
    if parts.length = 8 then parts.mapM parseHexGroup else none
  | some (l, r) =>
    if (findDoubleColon r).isSome then none
    else
      let lp := if l = [] then [] else splitChars ':' l
      let rp := if r = [] then [] else splitChars ':' r
      if lp.length + rp.length ≤ 7 then
        match lp.mapM parseHexGroup, rp.mapM parseHexGroup with
        | some lg, some rg =>
          some (lg ++ List.replicate (8 - (lp.length + rp.length)) 0 ++ rg)
        | _, _ => none
      else none

/-- Lowercase hexadecimal rendering of one group, without leading zeros. -/
def hexChars (n : Nat) : List Char :=
  Nat.toDigits 16 n

/-- Length of the zero-run of `gs` starting at position `i`. -/
def zeroRunAt (gs : List Nat) (i : Nat) : Nat :=
  ((gs.drop i).takeWhile (fun g => g = 0)).length

/-- The leftmost longest run of zero groups, when its length is at least
two (the run the `::` abbreviation replaces). -/
def bestZeroRun (gs : List Nat) : Option (Nat × Nat) :=
  let best := (List.range gs.length).foldl
    (fun acc i => if zeroRunAt gs i > acc.2 then (i, zeroRunAt gs i) else acc) (0, 0)
  if best.2 ≥ 2 then some best else none

/-- Join group renderings with `:` separators. -/
def joinGroups : List (List Char) → List Char
  | [] => []
  | [g] => g
  | g :: rest => g ++ ':' :: joinGroups rest

/-- Modelled from the spec: the compressed textual form of an IPv6 address
(the output of the missing `utils.inetNtop ∘ utils.inetPton`
canonicalization) — lowercase hex groups without leading zeros, with the
leftmost longest zero-run of length ≥ 2 abbreviated to `::`. -/
def compressIPv6 (gs : List Nat) : String :=
  match bestZeroRun gs with
  | none => String.mk (joinGroups (gs.map hexChars))
  | some (i, len) =>
    String.mk (joinGroups ((gs.take i).map hexChars) ++ ':' :: ':' ::
      joinGroups ((gs.drop (i + len)).map hexChars))

/-- `utils.inetNtop(utils.inetPton(ip))` as applied by `parseIp` to a
version-6 input: canonicalize to the compressed textual form. -/
def canonIp (s : String) : String :=
  match parseIPv6 s with
  | some gs => compressIPv6 gs
  | none => s

/-- Modelled from the spec: `utils.getIpVersion` — detect version 4 or 6
from syntax; invalid strings yield the unknown version (`undefined`). -/
def getIpVersion (s : String) : JsVal :=
  if isIPv4 s then .num 4
  else if (parseIPv6 s).isSome then .num 6
  else (.undef : JsVal)

/-- Modelled from the spec: `utils.ip2long` — the 32-bit integer value of a
dotted-quad IPv4 address (0 when the string is not one; `parseIp` only
calls it on version-4 inputs). -/
def ip2long (s : String) : Int :=
  match splitChars '.' s.data with
  | [a, b, c, d] =>
    match parseDigits decDigitVal 10 a, parseDigits decDigitVal 10 b,
        parseDigits decDigitVal 10 c, parseDigits decDigitVal 10 d with
    | some x, some y, some z, some w => Int.ofNat (x * 16777216 + y * 65536 + z * 256 + w)
    | _, _, _, _ => 0
  | _ => 0

/-- The flat ("UDGER FORMAT") IP result record `rip`.  Modelled from the
spec for the default template: every field defaults to the empty string. -/
structure IpRip where
  ip : JsVal := .str ""
  ip_ver : JsVal := .str ""
  ip_classification : JsVal := .str ""
  ip_classification_code : JsVal := .str ""
  ip_last_seen : JsVal := .str ""
  ip_hostname : JsVal := .str ""
  ip_country : JsVal := .str ""
  ip_country_code : JsVal := .str ""
  ip_city : JsVal := .str ""
  crawler_name : JsVal := .str ""
  crawler_ver : JsVal := .str ""
  crawler_ver_major : JsVal := .str ""
  crawler_family : JsVal := .str ""
  crawler_family_code : JsVal := .str ""
  crawler_family_homepage : JsVal := .str ""
  crawler_family_vendor : JsVal := .str ""
  crawler_family_vendor_code : JsVal := .str ""
  crawler_family_vendor_homepage : JsVal := .str ""
  crawler_family_icon : JsVal := .str ""
  crawler_family_info_url : JsVal := .str ""
  crawler_last_seen : JsVal := .str ""
  crawler_category : JsVal := .str ""
  crawler_category_code : JsVal := .str ""
  crawler_respect_robotstxt : JsVal := .str ""
  datacenter_name : JsVal := .str ""
  datacenter_name_code : JsVal := .str ""
  datacenter_homepage : JsVal := .str ""
deriving DecidableEq, Repr

/-- The all-default IP template row. -/
def defaultRip : IpRip := {}

/-- The exact-match predicate of `parseIp` (`row[columns.ip] === ip`). -/
def ipListPred (ds : Dataset) (ip : String) (cells : List JsVal) : Bool :=
  jsStrictEq (rowGet cells (colIdx ds.udger_ip_list "ip")) (.str ip)

/-- The datacenter join shared by the IPv4 and IPv6 range stages. -/
def setDatacenterFields (ds : Dataset) (rip : IpRip) (qRow : List JsVal)
    (tbl : Table) : IpRip :=
  let ra := mapRow tbl (some (.row qRow)) ["datacenter_id"] []
  let rb := objMerge ra (mapRow ds.udger_datacenter_list
    (jsIndexR ds.udger_datacenter_list.data (objGet ra "datacenter_id"))
    ["name", "name_code", "homepage"] [])
  { rip with
    datacenter_name := jsOrEmpty (objGet rb "name")
    datacenter_name_code := jsOrEmpty (objGet rb "name_code")
    datacenter_homepage := jsOrEmpty (objGet rb "homepage") }

/-- The IPv6 datacenter range predicate: all eight 16-bit groups inside the
corresponding `[iplong_fromN, iplong_toN]` bounds (the source spells the
eight conjunctions out). -/
def range6Contains (ds : Dataset) (gs : List Nat) (cells : List JsVal) : Bool :=
  (List.range 8).all (fun i =>
    jsLeInt (rowGet cells (colIdx ds.udger_datacenter_range6 ("iplong_from" ++ toString i)))
      (Int.ofNat (gs.getD i 0))
    && jsGeInt (rowGet cells (colIdx ds.udger_datacenter_range6 ("iplong_to" ++ toString i)))
      (Int.ofNat (gs.getD i 0)))

/-- Everything `parseIp` computes after version detection and
canonicalization: the exact-match lookup with its joins, then the
datacenter range enrichment.  `ip` is the (already canonicalized) lookup
text; the echoed input field is filled in by `parseIp` itself. -/
def parseIpCore (ds : Dataset) (ipver : JsVal) (ip : String) : IpRip :=
  let rip0 : IpRip := { defaultRip with ip_ver := ipver }
  let rip1 :=
    match findBy ds.udger_ip_list (ipListPred ds ip) with
    | some qRow =>
      let r1 := mapRow ds.udger_ip_list (some (.row qRow))
        ["class_id", "crawler_id", "ip_last_seen", "ip_hostname", "ip_country",
         "ip_city", "ip_country_code"] []
      let r2 := objMerge r1 (mapRow ds.udger_ip_class
        (jsIndexR ds.udger_ip_class.data (objGet r1 "class_id"))
        ["ip_classification", "ip_classification_code"] [])
      let r3 := objDelete r2 "class_id"
      let r4 := objMerge r3 (mapRow ds.udger_crawler_list
        (jsIndexR ds.udger_crawler_list.data (objGet r3 "crawler_id"))
        ["id", "name", "ver", "ver_major", "class_id", "last_seen",
         "respect_robotstxt", "family", "family_code", "family_homepage",
         "family_icon", "vendor", "vendor_code", "vendor_homepage"]
        [("id", "botid")])
      let r5 := objDelete r4 "crawler_id"
      let r6 := objMerge r5 (mapRow ds.udger_crawler_class
        (jsIndexR ds.udger_crawler_class.data (objGet r5 "class_id"))
        ["crawler_classification", "crawler_classification_code"] [])
      let r := objDelete r6 "class_id"
      { rip0 with
        ip_classification := jsOrEmpty (objGet r "ip_classification")
        ip_classification_code := jsOrEmpty (objGet r "ip_classification_code")
        ip_last_seen := jsOrEmpty (objGet r "ip_last_seen")
        ip_hostname := jsOrEmpty (objGet r "ip_hostname")
        ip_country := jsOrEmpty (objGet r "ip_country")
        ip_country_code := jsOrEmpty (objGet r "ip_country_code")
        ip_city := jsOrEmpty (objGet r "ip_city")
        crawler_name := jsOrEmpty (objGet r "name")
        crawler_ver := jsOrEmpty (objGet r "ver")
        crawler_ver_major := jsOrEmpty (objGet r "ver_major")
        crawler_family := jsOrEmpty (objGet r "family")
        crawler_family_code := jsOrEmpty (objGet r "family_code")
        crawler_family_homepage := jsOrEmpty (objGet r "family_homepage")
        crawler_family_vendor := jsOrEmpty (objGet r "vendor")
        crawler_family_vendor_code := jsOrEmpty (objGet r "vendor_code")
        crawler_family_vendor_homepage := jsOrEmpty (objGet r "vendor_homepage")
        crawler_family_icon := jsOrEmpty (objGet r "family_icon")
        crawler_family_info_url :=
          if jsStrictEq (objGet r "ip_classification_code") (.str "crawler") then
            .str ("https://udger.com/resources/ua-list/bot-detail?bot="
              ++ jsOrEmptyStr (objGet r "family") ++ "#id" ++ jsOrEmptyStr (objGet r "botid"))
          else rip0.crawler_family_info_url
        crawler_last_seen := jsOrEmpty (objGet r "last_seen")
        crawler_category := jsOrEmpty (objGet r "crawler_classification")
        crawler_category_code := jsOrEmpty (objGet r "crawler_classification_code")
        crawler_respect_robotstxt := jsOrEmpty (objGet r "respect_robotstxt") }
    | none =>
      { rip0 with
        ip_classification := .str "Unrecognized"
        ip_classification_code := .str "unrecognized" }
  if jsStrictEq ipver (.num 4) then
    let ipInt := ip2long ip
    match findBy ds.udger_datacenter_range (fun cells =>
        jsLeInt (rowGet cells (colIdx ds.udger_datacenter_range "iplong_from")) ipInt
        && jsGeInt (rowGet cells (colIdx ds.udger_datacenter_range "iplong_to")) ipInt) with
    | some qRow => setDatacenterFields ds rip1 qRow ds.udger_datacenter_range
    | none => rip1
  else if jsStrictEq ipver (.num 6) then
    let gs := (parseIPv6 ip).getD (List.replicate 8 0)
    match findBy ds.udger_datacenter_range6 (range6Contains ds gs) with
    | some qRow => setDatacenterFields ds rip1 qRow ds.udger_datacenter_range6
    | none => rip1
  else rip1

/-- `UdgerParser.parseIp` (flat "UDGER FORMAT" record).  The echoed `ip`
field is assigned *before* canonicalization, so it always carries the
caller's original text; a version-6 input is then canonicalized to its
compressed form for every lookup. -/
def parseIp (ds : Dataset) (ipOpt : Option String) : IpRip :=
  if jsStrTruthy ipOpt then
    let ip0 := ipOpt.getD ""
    let ipver := getIpVersion ip0
    let ip1 := if jsStrictEq ipver (.num 6) then canonIp ip0 else ip0
    { parseIpCore ds ipver ip1 with ip := .str ip0 }
  else defaultRip

/-- The merged result object `ret` built by one `parse` call.  Each field
models one top-level property; `none` means the property is absent.  The
nested JSON sections carry no claim-relevant interior, so their payload is
`Unit` (presence only). -/
structure ParseRet where
  user_agent : Option UaRua := none
  ip_address : Option IpRip := none
  from_cache : Option Bool := none
  userAgent : Option Unit := none
  ipAddress : Option Unit := none
  fromCache : Option Bool := none
deriving DecidableEq, Repr

instance : Inhabited ParseRet := ⟨{}⟩

/-- The caller-facing options of `parse`: nested-JSON shape and verbose
(`full`) field set. -/
structure Opts where
  json : Bool := false
  full : Bool := false
deriving DecidableEq, Repr

/-- `this.cache[key]` lookup: the stored reference (a heap address), if the
key is present. -/
def cacheLookup (cache : List (String × Nat)) (k : String) : Option Nat :=
  (cache.find? (fun p => p.1 = k)).map (fun p => p.2)

/-- The eviction loop of `cacheWrite`
(`while (Object.keys(this.cache).length > this.cacheMaxRecords) delete
Object.keys(this.cache)[0]`): repeatedly remove the first (oldest) entry
until the count is within the capacity.  The cache keys are UA/IP strings
(never integer-like), so JavaScript object key order is insertion order;
the fuel equals the initial length, which bounds the number of
iterations. -/
def evictGo : Nat → List (String × Nat) → Nat → List (String × Nat)
  | 0, cache, _ => cache
  | fuel + 1, cache, maxRecords =>
    if cache.length > maxRecords then evictGo fuel (cache.drop 1) maxRecords else cache

/-- Entry point of the eviction loop. -/
def evictLoop (cache : List (String × Nat)) (maxRecords : Nat) : List (String × Nat) :=
  evictGo cache.length cache maxRecords

/-- `UdgerParser.cacheWrite`: a no-op when the key is already present
("already in the cache"); otherwise store the entry and run the eviction
loop. -/
def cacheWrite (cache : List (String × Nat)) (maxRecords : Nat) (k : String)
    (a : Nat) : List (String × Nat) :=
  if (cacheLookup cache k).isSome then cache
  else evictLoop (cache ++ [(k, a)]) maxRecords

/-- The flag mutation done by `cacheRead` on the stored object:
`ret['fromCache'] = true` under `{json, full}`, `ret['from_cache'] = true`
without `json`, and nothing under `{json}` without `full`. -/
def setFromCacheFlag (opts : Opts) (v : ParseRet) : ParseRet :=
  if opts.json then
    if opts.full then { v with fromCache := some true } else v
  else { v with from_cache := some true }

/-- The parser's mutable state: the session inputs, the cache toggle and
bound, the key → address cache, and a heap of allocated result objects
(addresses model JavaScript object references, so mutation through one
reference is visible through every alias). -/
structure ParserState where
  ds : Dataset
  dbReady : Bool
  ua : Option String
  ip : Option String
  cacheEnable : Bool
  cacheMaxRecords : Nat
  keyCache : String
  cache : List (String × Nat)
  heap : List ParseRet

/-- Allocate a fresh result object, returning its address. -/
def alloc (st : ParserState) (v : ParseRet) : ParserState × Nat :=
  ({ st with heap := st.heap ++ [v] }, st.heap.length)

/-- `UdgerParser.cacheKeyExist`. -/
def cacheKeyExist (st : ParserState) (k : String) : Bool :=
  (cacheLookup st.cache k).isSome

/-- `UdgerParser.cacheRead`: fetch the stored object, set the
cache-served flag *on that stored object itself*, and return the same
reference.  (`parse` only calls it under `cacheKeyExist`; on a missing key
the source would throw, here the state is returned unchanged.) -/
def cacheRead (st : ParserState) (k : String) (opts : Opts) : ParserState × Nat :=
  match cacheLookup st.cache k with
  | some a =>
    ({ st with heap := st.heap.set a (setFromCacheFlag opts ((st.heap.get? a).getD default)) }, a)
  | none => (st, st.heap.length)

/-- `UdgerParser.parse`: empty object when the database is not connected;
cache hit served by `cacheRead`; otherwise run the two classifiers per the
output-shape options, allocate the merged object, and (when caching is on)
store it under the current key. -/
def parse (st : ParserState) (opts : Opts) : ParserState × Nat :=
  if !st.dbReady then alloc st {}
  else if st.cacheEnable && cacheKeyExist st st.keyCache then
    cacheRead st st.keyCache opts
  else
    let ret : ParseRet :=
      if opts.json then
        { userAgent := if jsStrTruthy st.ua then some () else none
          ipAddress := if jsStrTruthy st.ip then some () else none
          fromCache := if opts.full then some false else none }
      else
        { user_agent := some (parseUa st.ds st.ua)
          ip_address := some (parseIp st.ds st.ip)
          from_cache := some false }
    let st1 := ({ st with heap := st.heap ++ [ret] } : ParserState)
    let a := st.heap.length
    let st2 := if st1.cacheEnable then
        { st1 with cache := cacheWrite st1.cache st1.cacheMaxRecords st1.keyCache a }
      else st1
    (st2, a)

/-- A table with no columns and no rows. -/
def emptyTable : Table := ⟨[], []⟩

/-- A dataset with every table empty and no matching regex. -/
def emptyDataset : Dataset :=
  { udger_crawler_list := emptyTable
    udger_crawler_class := emptyTable
    udger_client_regex := emptyTable
    udger_client_list := emptyTable
    udger_client_class := emptyTable
    udger_os_regex := emptyTable
    udger_os_list := emptyTable
    udger_client_os_relation := emptyTable
    udger_deviceclass_regex := emptyTable
    udger_deviceclass_list := emptyTable
    udger_devicename_regex := emptyTable
    udger_devicename_list := emptyTable
    udger_devicename_brand := emptyTable
    udger_ip_list := emptyTable
    udger_ip_class := emptyTable
    udger_datacenter_range := emptyTable
    udger_datacenter_range6 := emptyTable
    udger_datacenter_list := emptyTable
    regexSem := fun _ _ => none }

/-- A small OS table used by several concrete datasets: one row with id 11,
name `TestOS`, family code `testos`. -/
def testOsList : Table :=
  { columns := [("id", 0), ("family", 1), ("family_code", 2), ("name", 3), ("name_code", 4)]
    data := [[.num 11, .str "TestOS Family", .str "testos", .str "TestOS", .str "testos_code"]] }

/-- Concrete dataset for the crawler claim: the UA string `CrawlBot` is an
exact crawler entry, and an OS regex also matches it. -/
def crawlerOsDs : Dataset :=
  { emptyDataset with
    udger_crawler_list :=
      { columns := [("ua_string", 0), ("id", 1), ("name", 2), ("class_id", 3)]
        data := [[.str "CrawlBot", .num 1, .str "CrawlBot/1.0", .num 0]] }
    udger_crawler_class :=
      { columns := [("crawler_classification", 0), ("crawler_classification_code", 1)]
        data := [[.str "Search engine bot", .str "search_engine_bot"]] }
    udger_os_regex :=
      { columns := [("regstring", 0), ("os_id", 1)]
        data := [[.str "OSRE", .num 0]] }
    udger_os_list := testOsList
    regexSem := fun re ua => if re = "OSRE" && ua = "CrawlBot" then some ⟨none⟩ else none }

/-- Concrete dataset for the OS-relation fallback claim: the client regex
matches `ClientUA` (client id 7), no OS regex matches, and
`udger_client_os_relation` relates client 7 to the `TestOS` row. -/
def clientOsRelDs : Dataset :=
  { emptyDataset with
    udger_client_regex :=
      { columns := [("regstring", 0), ("client_id", 1)]
        data := [[.str "CLIENTRE", .num 0]] }
    udger_client_list :=
      { columns := [("id", 0), ("class_id", 1), ("name", 2)]
        data := [[.num 7, .num 0, .str "TestClient"]] }
    udger_client_class :=
      { columns := [("id", 0), ("client_classification", 1),
                    ("client_classification_code", 2), ("deviceclass_id", 3)]
        data := [[.num 5, .str "Browser", .str "browser", .num 0]] }
    udger_os_list := testOsList
    udger_client_os_relation :=
      { columns := [("client_id", 0), ("os_id", 1)]
        data := [[.num 7, .num 0]] }
    regexSem := fun re ua => if re = "CLIENTRE" && ua = "ClientUA" then some ⟨none⟩ else none }

/-- Like `clientOsRelDs` but the client regex captures a version string in
group 1. -/
def clientVersionDs : Dataset :=
  { clientOsRelDs with
    regexSem := fun re ua =>
      if re = "CLIENTRE" && ua = "ClientUA" then some ⟨some "5.2.1"⟩ else none }

/-- Concrete dataset with a dangling foreign id: the client regex matches
`DangleUA` but its `client_id` (index 9) resolves to no `udger_client_list`
row, so the client and client-class joins both yield the empty record. -/
def dangleClientDs : Dataset :=
  { emptyDataset with
    udger_client_regex :=
      { columns := [("regstring", 0), ("client_id", 1)]
        data := [[.str "DANGLERE", .num 9]] }
    regexSem := fun re ua => if re = "DANGLERE" && ua = "DangleUA" then some ⟨none⟩ else none }

/-- Concrete dataset for the invalid-IP claim: the exact-match table
contains a row keyed by the (syntactically invalid) text `abc`. -/
def invalidIpDs : Dataset :=
  { emptyDataset with
    udger_ip_list :=
      { columns := [("ip", 0), ("class_id", 1), ("crawler_id", 2)]
        data := [[.str "abc", .num 0, .undef]] }
    udger_ip_class :=
      { columns := [("ip_classification", 0), ("ip_classification_code", 1)]
        data := [[.str "Crawler", .str "crawler"]] } }

/-- The initial `parseUa` context (template copy plus the four zeroed id
variables). -/
def initCtx (ua : String) : UaCtx :=
  { rua := { defaultRua with
      ua_string := .str ua
      ua_class := .str "Unrecognized"
      ua_class_code := .str "unrecognized" }
    client_id := .num 0
    client_class_id := .num (-1)
    os_id := .num 0
    deviceclass_id := .num 0
    r := none }

theorem parseUa_eq_stages (ds : Dataset) (ua : String) (hua : ua ≠ "") :
    parseUa ds (some ua) = (uaPipeline ds ua (stageCrawlerClient ds ua (initCtx ua))).rua := by
  unfold parseUa initCtx
  simp [jsStrTruthy, hua]

theorem stageOs_frame (ds : Dataset) (ua : String) (ctx : UaCtx) :
    (stageOs ds ua ctx).rua.ua_class = ctx.rua.ua_class ∧
    (stageOs ds ua ctx).rua.ua_class_code = ctx.rua.ua_class_code ∧
    (stageOs ds ua ctx).rua.ua_version = ctx.rua.ua_version ∧
    (stageOs ds ua ctx).rua.ua_version_major = ctx.rua.ua_version_major := by
  unfold stageOs
  split
  · exact ⟨rfl, rfl, rfl, rfl⟩
  · exact ⟨rfl, rfl, rfl, rfl⟩

theorem stageOsFallback_frame (ds : Dataset) (ctx : UaCtx) :
    (stageOsFallback ds ctx).rua.ua_class = ctx.rua.ua_class ∧
    (stageOsFallback ds ctx).rua.ua_class_code = ctx.rua.ua_class_code ∧
    (stageOsFallback ds ctx).rua.ua_version = ctx.rua.ua_version ∧
    (stageOsFallback ds ctx).rua.ua_version_major = ctx.rua.ua_version_major := by
  unfold stageOsFallback
  split
  · dsimp only
    split
    · exact ⟨rfl, rfl, rfl, rfl⟩
    · exact ⟨rfl, rfl, rfl, rfl⟩
  · exact ⟨rfl, rfl, rfl, rfl⟩

theorem stageDeviceClass_frame (ds : Dataset) (ua : String) (ctx : UaCtx) :
    (stageDeviceClass ds ua ctx).rua.ua_class = ctx.rua.ua_class ∧
    (stageDeviceClass ds ua ctx).rua.ua_class_code = ctx.rua.ua_class_code ∧
    (stageDeviceClass ds ua ctx).rua.ua_version = ctx.rua.ua_version ∧
    (stageDeviceClass ds ua ctx).rua.ua_version_major = ctx.rua.ua_version_major := by
  unfold stageDeviceClass
  split
  · exact ⟨rfl, rfl, rfl, rfl⟩
  · exact ⟨rfl, rfl, rfl, rfl⟩

theorem stageDeviceClassFallback_frame (ds : Dataset) (ctx : UaCtx) :
    (stageDeviceClassFallback ds ctx).rua.ua_class = ctx.rua.ua_class ∧
    (stageDeviceClassFallback ds ctx).rua.ua_class_code = ctx.rua.ua_class_code ∧
    (stageDeviceClassFallback ds ctx).rua.ua_version = ctx.rua.ua_version ∧
    (stageDeviceClassFallback ds ctx).rua.ua_version_major = ctx.rua.ua_version_major := by
  unfold stageDeviceClassFallback
  split
  · dsimp only
    split
    · exact ⟨rfl, rfl, rfl, rfl⟩
    · exact ⟨rfl, rfl, rfl, rfl⟩
  · exact ⟨rfl, rfl, rfl, rfl⟩

theorem stageMarketname_frame (ds : Dataset) (ua : String) (ctx : UaCtx) :
    (stageMarketname ds ua ctx).rua.ua_class = ctx.rua.ua_class ∧
    (stageMarketname ds ua ctx).rua.ua_class_code = ctx.rua.ua_class_code ∧
    (stageMarketname ds ua ctx).rua.ua_version = ctx.rua.ua_version ∧
    (stageMarketname ds ua ctx).rua.ua_version_major = ctx.rua.ua_version_major := by
  unfold stageMarketname
  split
  · dsimp only
    split
    · exact ⟨rfl, rfl, rfl, rfl⟩
    · exact ⟨rfl, rfl, rfl, rfl⟩
  · exact ⟨rfl, rfl, rfl, rfl⟩

/-- Stages 3–7 leave the classification and version fields set by the
crawler/client stage untouched. -/
theorem uaPipeline_frame (ds : Dataset) (ua : String) (ctx : UaCtx) :
    (uaPipeline ds ua ctx).rua.ua_class = ctx.rua.ua_class ∧
    (uaPipeline ds ua ctx).rua.ua_class_code = ctx.rua.ua_class_code ∧
    (uaPipeline ds ua ctx).rua.ua_version = ctx.rua.ua_version ∧
    (uaPipeline ds ua ctx).rua.ua_version_major = ctx.rua.ua_version_major := by
  unfold uaPipeline
  obtain ⟨a1, a2, a3, a4⟩ := stageOs_frame ds ua ctx
  obtain ⟨b1, b2, b3, b4⟩ := stageOsFallback_frame ds (stageOs ds ua ctx)
  obtain ⟨c1, c2, c3, c4⟩ := stageDeviceClass_frame ds ua (stageOsFallback ds (stageOs ds ua ctx))
  obtain ⟨d1, d2, d3, d4⟩ := stageDeviceClassFallback_frame ds
    (stageDeviceClass ds ua (stageOsFallback ds (stageOs ds ua ctx)))
  obtain ⟨e1, e2, e3, e4⟩ := stageMarketname_frame ds ua
    (stageDeviceClassFallback ds (stageDeviceClass ds ua (stageOsFallback ds (stageOs ds ua ctx))))
  refine ⟨?_, ?_, ?_, ?_⟩
  · rw [e1, d1, c1, b1, a1]
  · rw [e2, d2, c2, b2, a2]
  · rw [e3, d3, c3, b3, a3]
  · rw [e4, d4, c4, b4, a4]

theorem uaPipeline_clientRegex_indep (ds : Dataset) (t : Table) (ua : String) (ctx : UaCtx) :
    uaPipeline { ds with udger_client_regex := t } ua ctx = uaPipeline ds ua ctx := rfl

theorem stageCrawlerClient_clientRegex_indep (ds : Dataset) (t : Table) (ua : String)
    (ctx : UaCtx) (q : List JsVal)
    (h : findBy ds.udger_crawler_list (crawlerPred ds ua) = some q) :
    stageCrawlerClient { ds with udger_client_regex := t } ua ctx =
      stageCrawlerClient ds ua ctx := by
  have h2 : findBy ({ ds with udger_client_regex := t } : Dataset).udger_crawler_list
      (crawlerPred { ds with udger_client_regex := t } ua) = some q := h
  unfold stageCrawlerClient
  rw [h2, h]

/-- C1 (amended): for a UA string exactly equal to a `udger_crawler_list`
row's `ua_string`, `parseUa` classifies it as `Crawler`/`crawler` and the
client-regex stage is skipped entirely (the result does not depend on the
`udger_client_regex` table).  The original claim's further assertion — that
no OS/device fields are populated beyond the crawler record — is refuted by
`parseUa_crawler_os_counterexample`: the OS-regex and device-class stages
still run after the crawler branch. -/
theorem parseUa_crawler_final (ds : Dataset) (ua : String) (hua : ua ≠ "") (q : List JsVal)
    (h : findBy ds.udger_crawler_list (crawlerPred ds ua) = some q) :
    (parseUa ds (some ua)).ua_class = .str "Crawler" ∧
    (parseUa ds (some ua)).ua_class_code = .str "crawler" ∧
    ∀ t : Table, parseUa { ds with udger_client_regex := t } (some ua) = parseUa ds (some ua) := by
  have hp := parseUa_eq_stages ds ua hua
  have hf := uaPipeline_frame ds ua (stageCrawlerClient ds ua (initCtx ua))
  refine ⟨?_, ?_, ?_⟩
  · rw [hp, hf.1]; unfold stageCrawlerClient; rw [h]
  · rw [hp, hf.2.1]; unfold stageCrawlerClient; rw [h]
  · intro t
    have hp2 := parseUa_eq_stages { ds with udger_client_regex := t } ua hua
    rw [hp, hp2, uaPipeline_clientRegex_indep,
      stageCrawlerClient_clientRegex_indep ds t ua _ q h]

theorem parseUa_crawler_final_witness :
    (parseUa crawlerOsDs (some "CrawlBot")).ua_class = .str "Crawler" ∧
    (parseUa crawlerOsDs (some "CrawlBot")).ua_class_code = .str "crawler" := by
  have h := parseUa_crawler_final crawlerOsDs "CrawlBot" (by decide)
    [.str "CrawlBot", .num 1, .str "CrawlBot/1.0", .num 0] (by decide)
  exact ⟨h.1, h.2.1⟩

/-- C1 counterexample: in `crawlerOsDs` the UA string `CrawlBot` is an
exact crawler entry (first conjunct) and is classified `Crawler`, yet the
result's `os` field is populated (with `TestOS`, which the crawler record
does not carry) by the OS-regex stage — refuting "the result carries no OS
or device enrichment beyond what the crawler record itself carries". -/
theorem parseUa_crawler_os_counterexample :
    findBy crawlerOsDs.udger_crawler_list (crawlerPred crawlerOsDs "CrawlBot") =
      some [.str "CrawlBot", .num 1, .str "CrawlBot/1.0", .num 0] ∧
    (parseUa crawlerOsDs (some "CrawlBot")).ua_class = .str "Crawler" ∧
    (parseUa crawlerOsDs (some "CrawlBot")).os = .str "TestOS" ∧
    (parseUa crawlerOsDs (some "CrawlBot")).os ≠ .str "" := by decide

/-- C8: for a UA string with no crawler match, when the first matching
client regex (in table order) captures a non-empty group 1, `ua_version`
is that capture and `ua_version_major` is its substring before the first
`.`; when group 1 is absent both are empty strings. -/
theorem parseUa_client_version (ds : Dataset) (ua : String) (hua : ua ≠ "")
    (hcr : findBy ds.udger_crawler_list (crawlerPred ds ua) = none)
    (cells : List JsVal) (e : UaMatch)
    (hscan : scanMatch ds.regexSem (colIdx ds.udger_client_regex "regstring")
      ds.udger_client_regex.data ua = some (cells, e)) :
    (∀ v, e.group1 = some v → v ≠ "" →
      (parseUa ds (some ua)).ua_version = .str v ∧
      (parseUa ds (some ua)).ua_version_major = .str (majorOf v)) ∧
    (e.group1 = none →
      (parseUa ds (some ua)).ua_version = .str "" ∧
      (parseUa ds (some ua)).ua_version_major = .str "") := by
  have hp := parseUa_eq_stages ds ua hua
  have hf := uaPipeline_frame ds ua (stageCrawlerClient ds ua (initCtx ua))
  constructor
  · intro v hv hne
    constructor
    · rw [hp, hf.2.2.1]; unfold stageCrawlerClient; rw [hcr, hscan]; simp [hv, hne]
    · rw [hp, hf.2.2.2]; unfold stageCrawlerClient; rw [hcr, hscan]; simp [hv, hne]
  · intro hv
    constructor
    · rw [hp, hf.2.2.1]; unfold stageCrawlerClient; rw [hcr, hscan]; simp [hv]
    · rw [hp, hf.2.2.2]; unfold stageCrawlerClient; rw [hcr, hscan]; simp [hv]

theorem parseUa_client_version_witness :
    (parseUa clientVersionDs (some "ClientUA")).ua_version = .str "5.2.1" ∧
    (parseUa clientVersionDs (some "ClientUA")).ua_version_major = .str "5" := by
  have h := parseUa_client_version clientVersionDs "ClientUA" (by decide) (by decide)
    [.str "CLIENTRE", .num 0] ⟨some "5.2.1"⟩ (by decide)
  exact ⟨(h.1 "5.2.1" rfl (by decide)).1, (h.1 "5.2.1" rfl (by decide)).2⟩

/-- C5: evaluation of `parseUa` at the failing input.  In `clientOsRelDs`
the client regex matches `ClientUA` (client id 7, `ua_family` shows the
client was identified), no OS regex matches, the
`udger_client_os_relation` row for client 7 exists and resolves to the
`TestOS` row — yet every OS field of the result stays empty: the fallback's
`findBy` compares each row's `client_id` value against the `client_id`
*column index* (the destructured column name shadows the outer variable),
and even on a find it would map the stale loop variable `r` instead of the
found row `q`. -/
theorem parseUa_osFallback_bug :
    (parseUa clientOsRelDs (some "ClientUA")).ua_family = .str "TestClient" ∧
    scanMatch clientOsRelDs.regexSem (colIdx clientOsRelDs.udger_os_regex "regstring")
      clientOsRelDs.udger_os_regex.data "ClientUA" = none ∧
    findBy clientOsRelDs.udger_client_os_relation (fun cells =>
      jsStrictEq (rowGet cells (colIdx clientOsRelDs.udger_client_os_relation "client_id"))
        (.num 7)) = some [.num 7, .num 0] ∧
    jsIndex clientOsRelDs.udger_os_list.data (.num 0) =
      some [.num 11, .str "TestOS Family", .str "testos", .str "TestOS", .str "testos_code"] ∧
    (parseUa clientOsRelDs (some "ClientUA")).os = .str "" ∧
    (parseUa clientOsRelDs (some "ClientUA")).os_family = .str "" ∧
    (parseUa clientOsRelDs (some "ClientUA")).os_code = .str "" := by decide

/-- C9 (amended): a foreign id that does not reach a row (`data[id]` is
`undefined`) makes `map` return the all-empty record and the join never
throws (all functions involved are total); every read out of the empty
record yields `undefined`, and every dependent result field copied through
the `|| ''` guard therefore defaults to the empty string.  The original
claim's "every dependent result field defaults to the empty string" is
refuted by `mapRow_dangling_field_counterexample`: the fields assigned
*without* the guard (`ua_class`, `ua_class_code`, `ua` in the client
branch) receive `undefined` on a dangling join, not `''`. -/
theorem mapRow_dangling_join (tbl : Table) (rows : List (List JsVal)) (fk : JsVal)
    (keys : List String) (rename : List (String × String))
    (h : jsIndex rows fk = none) :
    mapRow tbl (jsIndexR rows fk) keys rename = [] ∧
    ∀ k, objGet (mapRow tbl (jsIndexR rows fk) keys rename) k = .undef ∧
      jsOrEmpty (objGet (mapRow tbl (jsIndexR rows fk) keys rename) k) = .str "" := by
  have h0 : jsIndexR rows fk = none := by unfold jsIndexR; rw [h]; rfl
  rw [h0]
  exact ⟨rfl, fun k => ⟨rfl, rfl⟩⟩

theorem mapRow_dangling_join_witness :
    mapRow testOsList (jsIndexR testOsList.data (.num 5)) osListKeys [("id", "os_id")] = [] ∧
    jsOrEmpty (objGet (mapRow testOsList (jsIndexR testOsList.data (.num 5)) osListKeys
      [("id", "os_id")]) "name") = .str "" := by
  have h := mapRow_dangling_join testOsList testOsList.data (.num 5) osListKeys
    [("id", "os_id")] (by decide)
  exact ⟨h.1, (h.2 "name").2⟩

/-- C9 counterexample: the client regex matches `DangleUA` but its
`client_id` is dangling, so the client/class joins yield empty records —
and the result fields the source assigns without the `|| ''` guard
(`rua['ua_class'] = r['client_classification']`,
`rua['ua_class_code'] = ...`, `rua['ua'] = r['name']`) come out
`undefined`, not the empty string. -/
theorem mapRow_dangling_field_counterexample :
    jsIndex dangleClientDs.udger_client_list.data (.num 9) = none ∧
    (parseUa dangleClientDs (some "DangleUA")).ua_class = .undef ∧
    (parseUa dangleClientDs (some "DangleUA")).ua_class_code = .undef ∧
    (parseUa dangleClientDs (some "DangleUA")).ua = .undef ∧
    (parseUa dangleClientDs (some "DangleUA")).ua_class ≠ .str "" := by decide

theorem getIpVersion_six_parse {s : String} (h : getIpVersion s = .num 6) :
    ∃ g, parseIPv6 s = some g := by
  unfold getIpVersion at h
  split at h
  · exact absurd h (by decide)
  · split at h
    · exact Option.isSome_iff_exists.mp (by assumption)
    · exact absurd h (by decide)

theorem parseIp_unfold (ds : Dataset) (s : String) (hs : s ≠ "") :
    parseIp ds (some s) =
      { parseIpCore ds (getIpVersion s)
          (if jsStrictEq (getIpVersion s) (.num 6) then canonIp s else s) with
        ip := .str s } := by
  unfold parseIp
  simp [jsStrTruthy, hs]

/-- C2 (amended): for two textual forms of the same IPv6 address, `parseIp`
canonicalizes both to the identical compressed form before any lookup, so
the two results agree on every field *except* the echoed `ip` field, which
is assigned from the caller's original text before canonicalization and
therefore differs between the two encodings. -/
theorem parseIp_canonicalization (ds : Dataset) (t1 t2 : String)
    (h1 : getIpVersion t1 = .num 6) (h2 : getIpVersion t2 = .num 6)
    (hp : parseIPv6 t1 = parseIPv6 t2) (ht1 : t1 ≠ "") (ht2 : t2 ≠ "") :
    (parseIp ds (some t1)).ip = .str t1 ∧
    (parseIp ds (some t2)).ip = .str t2 ∧
    { parseIp ds (some t1) with ip := .str "" } =
      { parseIp ds (some t2) with ip := .str "" } := by
  obtain ⟨g, hg⟩ := getIpVersion_six_parse h1
  have hg2 : parseIPv6 t2 = some g := by rw [← hp]; exact hg
  have hc : canonIp t1 = canonIp t2 := by unfold canonIp; rw [hg, hg2]
  rw [parseIp_unfold ds t1 ht1, parseIp_unfold ds t2 ht2, h1, h2, hc]
  exact ⟨rfl, rfl, rfl⟩

theorem parseIp_canonicalization_witness :
    (parseIp emptyDataset (some "2001:db8::1")).ip = .str "2001:db8::1" ∧
    { parseIp emptyDataset (some "2001:db8::1") with ip := .str "" } =
      { parseIp emptyDataset (some "2001:0db8:0000:0000:0000:0000:0000:0001") with
        ip := .str "" } := by
  have h := parseIp_canonicalization emptyDataset "2001:db8::1"
    "2001:0db8:0000:0000:0000:0000:0000:0001" (by decide) (by decide) (by decide)
    (by decide) (by decide)
  exact ⟨h.1, h.2.2⟩

/-- C2 counterexample: the compressed and the expanded textual form of the
same IPv6 address do *not* produce byte-identical result objects — the
echoed `ip` field keeps the caller's original spelling. -/
theorem parseIp_echo_counterexample :
    getIpVersion "2001:db8::1" = .num 6 ∧
    getIpVersion "2001:0db8:0000:0000:0000:0000:0000:0001" = .num 6 ∧
    parseIPv6 "2001:db8::1" = parseIPv6 "2001:0db8:0000:0000:0000:0000:0000:0001" ∧
    parseIp emptyDataset (some "2001:db8::1") ≠
      parseIp emptyDataset (some "2001:0db8:0000:0000:0000:0000:0000:0001") ∧
    (parseIp emptyDataset (some "2001:0db8:0000:0000:0000:0000:0000:0001")).ip =
      .str "2001:0db8:0000:0000:0000:0000:0000:0001" := by decide

theorem parseIpCore_undef_fields (ds : Dataset) (s : String) :
    (parseIpCore ds .undef s).ip_ver = .undef ∧
    (parseIpCore ds .undef s).datacenter_name = .str "" ∧
    (parseIpCore ds .undef s).datacenter_name_code = .str "" ∧
    (parseIpCore ds .undef s).datacenter_homepage = .str "" ∧
    (findBy ds.udger_ip_list (ipListPred ds s) = none →
      (parseIpCore ds .undef s).ip_classification = .str "Unrecognized" ∧
      (parseIpCore ds .undef s).ip_classification_code = .str "unrecognized") := by
  unfold parseIpCore
  cases hfind : findBy ds.udger_ip_list (ipListPred ds s) with
  | some qRow =>
    exact ⟨rfl, rfl, rfl, rfl, fun hnone => Option.noConfusion hnone⟩
  | none =>
    exact ⟨rfl, rfl, rfl, rfl, fun _ => ⟨rfl, rfl⟩⟩

/-- C3 (amended): a string that is neither a valid IPv4 nor IPv6 address
yields the unknown version (`undefined`) and no datacenter match — but the
exact-match lookup is still performed against the raw input and the
classification fields are always populated: `Unrecognized` on a miss (and,
on a hit, from the matching row — see `parseIp_invalid_lookup_counterexample`),
rather than the result containing only the echoed input field. -/
theorem parseIp_invalid (ds : Dataset) (s : String) (hs : s ≠ "")
    (h : getIpVersion s = .undef) :
    (parseIp ds (some s)).ip = .str s ∧
    (parseIp ds (some s)).ip_ver = .undef ∧
    (parseIp ds (some s)).datacenter_name = .str "" ∧
    (parseIp ds (some s)).datacenter_name_code = .str "" ∧
    (parseIp ds (some s)).datacenter_homepage = .str "" ∧
    (findBy ds.udger_ip_list (ipListPred ds s) = none →
      (parseIp ds (some s)).ip_classification = .str "Unrecognized" ∧
      (parseIp ds (some s)).ip_classification_code = .str "unrecognized") := by
  have hbase : parseIp ds (some s) = { parseIpCore ds .undef s with ip := .str s } := by
    rw [parseIp_unfold ds s hs, h]; rfl
  rw [hbase]
  have hcore := parseIpCore_undef_fields ds s
  exact ⟨rfl, hcore.1, hcore.2.1, hcore.2.2.1, hcore.2.2.2.1, hcore.2.2.2.2⟩


theorem parseIp_invalid_witness :
    (parseIp emptyDataset (some "not-an-ip")).ip_ver = .undef ∧
    (parseIp emptyDataset (some "not-an-ip")).ip_classification = .str "Unrecognized" := by
  have h := parseIp_invalid emptyDataset "not-an-ip" (by decide) (by decide)
  exact ⟨h.2.1, (h.2.2.2.2.2 (by decide)).1⟩

/-- C3 counterexample: on an invalid input (`abc`, version unknown) the
exact-match lookup is still executed — a dataset row keyed by the text
`abc` is found and its classification is copied into the result — so the
result does not "contain only the echoed input field" and the lookup is not
skipped. -/
theorem parseIp_invalid_lookup_counterexample :
    getIpVersion "abc" = .undef ∧
    (parseIp invalidIpDs (some "abc")).ip_ver = .undef ∧
    (parseIp invalidIpDs (some "abc")).ip_classification = .str "Crawler" ∧
    (parseIp invalidIpDs (some "abc")).ip_classification_code = .str "crawler" := by decide

theorem evictGo_length_le (fuel : Nat) (c : List (String × Nat)) (m : Nat)
    (h : c.length ≤ m + fuel) : (evictGo fuel c m).length ≤ m := by
  induction fuel generalizing c with
  | zero => simpa using h
  | succ n ih =>
    unfold evictGo
    split
    · apply ih
      have := List.length_drop 1 c
      omega
    · omega

/-- C6: whenever the state of the cache satisfies the capacity bound before
a `cacheWrite`, it still satisfies it afterwards — a fresh key is appended
and then the eviction loop removes oldest entries until the count is back
within `cacheMaxRecords` (and for a fresh key the bound even holds without
the precondition); a write for an already-present key leaves the cache
untouched. -/
theorem cacheWrite_bounded (c : List (String × Nat)) (m : Nat) (k : String) (a : Nat)
    (h : c.length ≤ m) : (cacheWrite c m k a).length ≤ m := by
  unfold cacheWrite
  split
  · exact h
  · unfold evictLoop
    exact evictGo_length_le _ _ _ (Nat.le_add_left _ _)

theorem cacheWrite_bounded_witness :
    ([(("a" : String), (1 : Nat))].length ≤ 1) ∧
    (cacheWrite [("a", 1)] 1 "b" 2).length ≤ 1 :=
  ⟨by decide, cacheWrite_bounded [("a", 1)] 1 "b" 2 (by decide)⟩

/-- C7 (amended): a `cacheWrite` for a key that is currently present is a
no-op, so while a key stays in the cache its stored value is the one from
the write that inserted it.  The original claim's "for every key the stored
value after any sequence of writes equals the value of the first write" is
refuted by `cacheWrite_rewrite_counterexample`: eviction can remove a key,
after which a later write re-inserts it with a different value. -/
theorem cacheWrite_present_noop (c : List (String × Nat)) (m : Nat) (k : String)
    (a v : Nat) (h : cacheLookup c k = some v) :
    cacheWrite c m k a = c := by
  unfold cacheWrite
  rw [h]
  rfl

theorem cacheWrite_present_noop_witness :
    cacheLookup [(("k" : String), (7 : Nat))] "k" = some 7 ∧
    cacheWrite [("k", 7)] 4000 "k" 9 = [("k", 7)] :=
  ⟨by decide, cacheWrite_present_noop [("k", 7)] 4000 "k" 9 7 (by decide)⟩

/-- C7 counterexample: with capacity 1, the first write stores `k1 ↦ 10`,
writing `k2` evicts `k1`, and a third write re-inserts `k1` with value 30 —
the stored value after the sequence is not the value of the first write of
`k1`. -/
theorem cacheWrite_rewrite_counterexample :
    cacheLookup (cacheWrite [] 1 "k1" 10) "k1" = some 10 ∧
    cacheLookup (cacheWrite (cacheWrite (cacheWrite [] 1 "k1" 10) 1 "k2" 20) 1 "k1" 30) "k1"
      = some 30 ∧
    (10 : Nat) ≠ 30 := by decide

theorem setFromCacheFlag_classic (opts : Opts) (v : ParseRet) (hj : opts.json = false) :
    (setFromCacheFlag opts v).from_cache = some true := by
  simp [setFromCacheFlag, hj]

theorem setFromCacheFlag_jsonFull (opts : Opts) (v : ParseRet) (hj : opts.json = true)
    (hf : opts.full = true) : (setFromCacheFlag opts v).fromCache = some true := by
  simp [setFromCacheFlag, hj, hf]

theorem cacheRead_step (st : ParserState) (k : String) (a : Nat) (opts : Opts)
    (hk : cacheLookup st.cache k = some a) :
    cacheRead st k opts =
      ({ st with heap := st.heap.set a (setFromCacheFlag opts ((st.heap.get? a).getD default)) }, a) := by
  unfold cacheRead
  rw [hk]

/-- C10: on a cache hit, `cacheRead` sets the cache-served flag on the very
object stored in the cache (the heap cell the cache — and any reference a
caller retained from an earlier `parse` of that key — points to) and
returns that same reference; the flag then stays `true` under further
reads. -/
theorem cacheRead_mutates_stored (st : ParserState) (k : String) (a : Nat) (opts : Opts)
    (hk : cacheLookup st.cache k = some a) (ha : a < st.heap.length) :
    (cacheRead st k opts).2 = a ∧
    (cacheRead st k opts).1.cache = st.cache ∧
    (cacheRead st k opts).1.heap.get? a =
      some (setFromCacheFlag opts ((st.heap.get? a).getD default)) ∧
    (opts.json = false →
      ((cacheRead st k opts).1.heap.get? a).map ParseRet.from_cache = some (some true)) ∧
    (opts.json = true → opts.full = true →
      ((cacheRead st k opts).1.heap.get? a).map ParseRet.fromCache = some (some true)) ∧
    (opts.json = false →
      ((cacheRead (cacheRead st k opts).1 k opts).1.heap.get? a).map ParseRet.from_cache
        = some (some true)) ∧
    (opts.json = true → opts.full = true →
      ((cacheRead (cacheRead st k opts).1 k opts).1.heap.get? a).map ParseRet.fromCache
        = some (some true)) := by
  have h1 := cacheRead_step st k a opts hk
  have hget : (st.heap.set a (setFromCacheFlag opts ((st.heap.get? a).getD default))).get? a
      = some (setFromCacheFlag opts ((st.heap.get? a).getD default)) := by
    rw [List.get?_eq_getElem?]
    exact List.getElem?_set_eq_of_lt _ ha
  have hk2 : cacheLookup (cacheRead st k opts).1.cache k = some a := by rw [h1]; exact hk
  have h2 := cacheRead_step (cacheRead st k opts).1 k a opts hk2
  have hget1 : (cacheRead st k opts).1.heap.get? a =
      some (setFromCacheFlag opts ((st.heap.get? a).getD default)) := by
    rw [h1]; exact hget
  have ha2 : a < (cacheRead st k opts).1.heap.length := by
    rw [h1]
    simpa [List.length_set] using ha
  have hget2 : (cacheRead (cacheRead st k opts).1 k opts).1.heap.get? a =
      some (setFromCacheFlag opts (((cacheRead st k opts).1.heap.get? a).getD default)) := by
    rw [h2, List.get?_eq_getElem?]
    exact List.getElem?_set_eq_of_lt _ ha2
  refine ⟨by rw [h1], by rw [h1], hget1, ?_, ?_, ?_, ?_⟩
  · intro hj
    rw [hget1, Option.map_some']
    rw [setFromCacheFlag_classic opts _ hj]
  · intro hj hf
    rw [hget1, Option.map_some']
    rw [setFromCacheFlag_jsonFull opts _ hj hf]
  · intro hj
    rw [hget2, Option.map_some']
    rw [setFromCacheFlag_classic opts _ hj]
  · intro hj hf
    rw [hget2, Option.map_some']
    rw [setFromCacheFlag_jsonFull opts _ hj hf]

/-- Concrete parser state for the cache-read witness: one stored result
under key `k` at heap address 0. -/
def witnessSt : ParserState :=
  { ds := emptyDataset
    dbReady := true
    ua := none
    ip := none
    cacheEnable := true
    cacheMaxRecords := 4000
    keyCache := "k"
    cache := [("k", 0)]
    heap := [{}] }

theorem cacheRead_mutates_stored_witness :
    ((cacheRead witnessSt "k" {}).1.heap.get? 0).map ParseRet.from_cache = some (some true) := by
  have h := cacheRead_mutates_stored witnessSt "k" 0 {} (by decide) (by decide)
  exact h.2.2.2.1 rfl

/-- The result object a cache-miss `parse` builds (the `ret` of the
source), per output shape. -/
def freshRet (st : ParserState) (opts : Opts) : ParseRet :=
  if opts.json then
    { userAgent := if jsStrTruthy st.ua then some () else none
      ipAddress := if jsStrTruthy st.ip then some () else none
      fromCache := if opts.full then some false else none }
  else
    { user_agent := some (parseUa st.ds st.ua)
      ip_address := some (parseIp st.ds st.ip)
      from_cache := some false }

/-- The object behind the reference a `parse` call returns. -/
def parseResult (st : ParserState) (opts : Opts) : ParseRet :=
  ((parse st opts).1.heap.get? (parse st opts).2).getD default

theorem parse_miss (st : ParserState) (opts : Opts) (hdb : st.dbReady = true)
    (hmiss : (st.cacheEnable && cacheKeyExist st st.keyCache) = false) :
    (parse st opts).1.heap = st.heap ++ [freshRet st opts] ∧
    (parse st opts).2 = st.heap.length := by
  unfold parse freshRet
  simp only [hdb, hmiss, Bool.not_true, Bool.false_eq_true, if_false]
  split <;> exact ⟨rfl, trivial⟩

theorem parseResult_miss (st : ParserState) (opts : Opts) (hdb : st.dbReady = true)
    (hmiss : (st.cacheEnable && cacheKeyExist st st.keyCache) = false) :
    parseResult st opts = freshRet st opts := by
  obtain ⟨h1, h2⟩ := parse_miss st opts hdb hmiss
  unfold parseResult
  rw [h1, h2, List.get?_eq_getElem?, List.getElem?_concat_length]
  rfl

/-- C4 (amended): for a fresh (non-cache-served) `parse` with the dataset
available, the *flat classic* shape always contains both the `user_agent`
and `ip_address` sections — each falling back to its empty default template
when the corresponding input was not set — plus `from_cache = false`; in
the *nested JSON* shape, however, a section is present only when its input
was set, and the `fromCache` flag only under the `full` option.  The
original claim ("always both sections plus the flag, for every combination
of the output-shape options") is refuted by `parse_json_shape_counterexample`. -/
theorem parse_sections (st : ParserState) (opts : Opts)
    (hdb : st.dbReady = true)
    (hmiss : (st.cacheEnable && cacheKeyExist st st.keyCache) = false) :
    ((parse st opts).1.heap.get? (parse st opts).2).isSome = true ∧
    (opts.json = false →
      (parseResult st opts).user_agent = some (parseUa st.ds st.ua) ∧
      (parseResult st opts).ip_address = some (parseIp st.ds st.ip) ∧
      (parseResult st opts).from_cache = some false ∧
      (jsStrTruthy st.ua = false → (parseResult st opts).user_agent = some defaultRua) ∧
      (jsStrTruthy st.ip = false → (parseResult st opts).ip_address = some defaultRip)) ∧
    (opts.json = true →
      (parseResult st opts).userAgent.isSome = jsStrTruthy st.ua ∧
      (parseResult st opts).ipAddress.isSome = jsStrTruthy st.ip ∧
      (parseResult st opts).fromCache = (if opts.full = true then some false else none)) := by
  obtain ⟨h1, h2⟩ := parse_miss st opts hdb hmiss
  have hres := parseResult_miss st opts hdb hmiss
  refine ⟨?_, ?_, ?_⟩
  · rw [h1, h2, List.get?_eq_getElem?, List.getElem?_concat_length]
    rfl
  · intro hj
    rw [hres]
    unfold freshRet
    rw [hj, if_neg (show ¬(false = true) by decide)]
    refine ⟨rfl, rfl, rfl, ?_, ?_⟩
    · intro hua
      have : parseUa st.ds st.ua = defaultRua := by
        unfold parseUa
        rw [hua]
        rfl
      simp [this]
    · intro hip
      have : parseIp st.ds st.ip = defaultRip := by
        unfold parseIp
        rw [hip]
        rfl
      simp [this]
  · intro hj
    rw [hres]
    unfold freshRet
    rw [hj, if_pos (show true = true from rfl)]
    refine ⟨?_, ?_, rfl⟩
    · cases hua : jsStrTruthy st.ua <;> simp [hua]
    · cases hip : jsStrTruthy st.ip <;> simp [hip]

/-- Concrete state for the C4 theorems: dataset ready, only the UA input
set, cache disabled. -/
def uaOnlySt : ParserState :=
  { ds := emptyDataset
    dbReady := true
    ua := some "myUnknowUA"
    ip := none
    cacheEnable := false
    cacheMaxRecords := 4000
    keyCache := ""
    cache := []
    heap := [] }

theorem parse_sections_witness :
    (parseResult uaOnlySt { json := false, full := false }).user_agent.isSome = true ∧
    (parseResult uaOnlySt { json := false, full := false }).ip_address =
      some defaultRip ∧
    (parseResult uaOnlySt { json := false, full := false }).from_cache = some false := by
  have h := parse_sections uaOnlySt { json := false, full := false } rfl rfl
  obtain ⟨hua, hip, hfc, _, hdefip⟩ := h.2.1 rfl
  exact ⟨by rw [hua]; rfl, hdefip rfl, hfc⟩

/-- C4 counterexample: with only the UA input set, the nested-JSON result
contains no IP section at all — even under `full`, where the claim demands
an (empty-default) IP section — and with `json` but not `full` the
cache-served flag is absent as well. -/
theorem parse_json_shape_counterexample :
    (parseResult uaOnlySt { json := true, full := true }).ipAddress = none ∧
    (parseResult uaOnlySt { json := true, full := true }).userAgent = some () ∧
    (parseResult uaOnlySt { json := true, full := true }).fromCache = some false ∧
    (parseResult uaOnlySt { json := true, full := false }).fromCache = none := by decide
